import Mathlib

/-!
Shallow embedding of `pv_cobra_redux` (a Rust binding of the Picovoice Cobra
VAD engine, `src/lib.rs`) and its microphone example pipeline
(`examples/mic.rs`), together with proofs settling the specification claims.

Modelling conventions:
- `f32` audio samples are modelled as `ℚ` (exact arithmetic); the quantities the
  claims touch (rounding half away from zero, saturation bounds, averaging of
  exact test vectors) are identical for the modelled inputs.
- the external resampler (`samplerate` crate) and the native engine calls
  (`pv_cobra_process`, `pv_cobra_init`) are opaque parameters of the pipeline
  step, modelled at their interface boundary.
- a Rust panic (`unwrap` on `None`, out-of-bounds index) is modelled by a
  distinct `panicked` outcome / by `Option.none` from the mixing step.
-/

set_option autoImplicit false

namespace PvCobraRedux

/-- Error enum from `src/lib.rs` (`pub enum Error`). -/
inductive Error where
  | NullValue
  | OutOfMemory
  | IoError
  | InvalidArgument
  | StopIteration
  | KeyError
  | InvalidState
  | RuntimeError
  | ActivationError
  | ActivationLimitReached
  | ActivationThrottled
  | ActivationRefused
  | UnknownError (code : Nat)
  deriving DecidableEq

/-- The `From<ffi::pv_status_t> for Error` impl in `src/lib.rs`: each named
nonzero status maps to its `Error` variant, everything else to `UnknownError`.
Status-code numbering comes from the external `pv_status_t` enum of the
bindgen-generated `ffi` module (external header, not repository source). -/
def errorFromStatus (status : Nat) : Error :=
  match status with
  | 1 => .OutOfMemory
  | 2 => .IoError
  | 3 => .InvalidArgument
  | 4 => .StopIteration
  | 5 => .KeyError
  | 6 => .InvalidState
  | 7 => .RuntimeError
  | 8 => .ActivationError
  | 9 => .ActivationLimitReached
  | 10 => .ActivationThrottled
  | 11 => .ActivationRefused
  | c => .UnknownError c

/-- `Cobra::new` from `src/lib.rs` lines 89-100. `CString::new(access_key)`
fails iff the byte string contains a null byte, and that failure is mapped to
`Error::NullValue`; otherwise `pv_cobra_init` (opaque FFI, abstracted by
`init`, returning a status code and whether the handle pointer is non-null)
decides the outcome: nonzero status becomes `Error::from(status)`, a null
handle becomes `Error::NullValue`, else success. -/
def cobraNew (init : List Nat → Nat × Bool) (accessKey : List Nat) :
    Except Error Unit :=
  if 0 ∈ accessKey then .error .NullValue
  else
    match init accessKey with
    | (status, handleNonNull) =>
      if status ≠ 0 then .error (errorFromStatus status)
      else if handleNonNull then .ok () else .error .NullValue

/-- `Cobra::process` from `src/lib.rs` lines 102-110: the native call
(abstracted by `engine`, returning a status code and a confidence value)
yields `Err(Error::from(status))` on nonzero status, else `Ok(confidence)`. -/
def cobraProcess (engine : List Int → Nat × ℚ) (pcm : List Int) :
    Except Error ℚ :=
  match engine pcm with
  | (status, confidence) =>
    if status = 0 then .ok confidence else .error (errorFromStatus status)

/-- Rust `f32::round`: round to nearest, ties away from zero. -/
def roundAway (q : ℚ) : Int :=
  if 0 ≤ q then ⌊q + 1 / 2⌋ else ⌈q - 1 / 2⌉

/-- Rust `as i16` cast from a float (saturating at the type's bounds). -/
def satCastI16 (n : Int) : Int :=
  if n < -32768 then -32768 else if 32767 < n then 32767 else n

/-- One sample of the mixer's quantization: `(s * i16::MAX as f32).round() as
i16` from `examples/mic.rs` (both the mono and the averaged stereo path). -/
def scaleSample (s : ℚ) : Int := satCastI16 (roundAway (s * 32767))

/-- The stereo fold of `examples/mic.rs` lines 119-127:
`chunks(2)` over the interleaved buffer, `chunk[0]`/`chunk[1]` per chunk,
average, then quantize. A trailing chunk of length 1 makes `chunk[1]` an
out-of-bounds index, i.e. a panic, modelled by `none`. -/
def mixChunks : List ℚ → Option (List Int)
  | [] => some []
  | [_] => none
  | l :: r :: rest =>
    (mixChunks rest).map fun t => scaleSample ((l + r) / 2) :: t

/-- The channel mix-and-quantize step of `add_samples`
(`examples/mic.rs` lines 112-128): `if channels == 1` map `scaleSample` over
the buffer, otherwise run the stereo pair fold. -/
def mixToMono (channels : Nat) (xs : List ℚ) : Option (List Int) :=
  if channels = 1 then some (xs.map scaleSample) else mixChunks xs

/-- The pipeline state guarded by the mutex in `examples/mic.rs`
(`AudioInputProcessor`): resampler state (opaque, type `σ`), the optional
accumulator buffer, and the progress-bar position (the reported confidence).
The engine handle itself is opaque and carried by the `engineProcess`
parameter of the step function. -/
structure ProcState (σ : Type) where
  resampler : σ
  buf : Option (List Int)
  barPos : Nat
  deriving DecidableEq

/-- Outcome of one `add_samples` invocation. -/
inductive AddError where
  | resampler
  | cobra (e : Error)
  | poisoned
  deriving DecidableEq

/-- Result of one `add_samples` invocation: `Ok(())`, an `Err` returned to the
caller, or a Rust panic inside the closure. -/
inductive AddResult where
  | ok
  | err (e : AddError)
  | panicked
  deriving DecidableEq

/-- What `try_lock` observed, from `examples/mic.rs` lines 107, 140, 143. -/
inductive LockOutcome where
  | acquired
  | wouldBlock
  | poisoned
  deriving DecidableEq

/-- Rust `as u64` cast of a float: saturating below at 0 and above at the
type's maximum. -/
def toU64 (q : ℚ) : Nat :=
  if q < 0 then 0 else min (2 ^ 64 - 1) ⌊q⌋.toNat

/-- Observable outcome of one `add_samples` call: the returned result, the
pipeline state after the call, whether the falling-behind diagnostic was
printed, and (instrumentation) the PCM slice handed to `Cobra::process`, if
any. -/
structure StepOut (σ : Type) where
  res : AddResult
  st : ProcState σ
  diag : Bool
  frameSent : Option (List Int)
  deriving DecidableEq

/-- The `add_samples` closure of `examples/mic.rs` lines 106-148, as a state
transition. `resample` abstracts `samplerate::Samplerate::process` (stateful,
fallible), `engineProcess` abstracts `guard.cobra.process`. `frameLen` is the
`frame_length` variable captured from `main`. On `WouldBlock` the buffer is
skipped with a diagnostic; on `Poisoned` the closure bails with an error;
otherwise: resample (`?` propagates the error), mix to mono (`chunk[1]` may
panic), `guard.buf.as_mut().unwrap()` (panics if the option is vacant), extend,
and if the threshold is reached, `take()` the buffer, score it, clear and
restore it, and set the progress bar. -/
def addSamples {σ : Type} (resample : σ → List ℚ → Except Unit (σ × List ℚ))
    (engineProcess : List Int → Except Error ℚ) (channels frameLen : Nat)
    (lock : LockOutcome) (st : ProcState σ) (samples : List ℚ) : StepOut σ :=
  match lock with
  | .wouldBlock => ⟨.ok, st, true, none⟩
  | .poisoned => ⟨.err .poisoned, st, false, none⟩
  | .acquired =>
    match resample st.resampler samples with
    | .error _ => ⟨.err .resampler, st, false, none⟩
    | .ok (r', resampled) =>
      match mixToMono channels resampled with
      | none => ⟨.panicked, { st with resampler := r' }, false, none⟩
      | some mono =>
        match st.buf with
        | none => ⟨.panicked, { st with resampler := r' }, false, none⟩
        | some b =>
          let buf := b ++ mono
          if frameLen ≤ buf.length then
            match engineProcess buf with
            | .error e =>
              ⟨.err (.cobra e), { st with resampler := r', buf := none },
                false, some buf⟩
            | .ok confidence =>
              ⟨.ok, ⟨r', some [], toU64 (confidence * 100)⟩, false, some buf⟩
          else ⟨.ok, { st with resampler := r', buf := some buf }, false, none⟩

/-- Outcome of the cpal data callback wrapping `add_samples`
(`examples/mic.rs` lines 155-189). -/
inductive CallbackOutcome where
  | normal
  | panicked
  deriving DecidableEq

/-- The cpal data callback (`examples/mic.rs` lines 155-189): converts the
device samples and calls `add_samples(..).expect("failed to add samples")`,
so any `Err` (and any panic inside the closure) aborts the callback. -/
def audioCallback {σ : Type} (resample : σ → List ℚ → Except Unit (σ × List ℚ))
    (engineProcess : List Int → Except Error ℚ) (channels frameLen : Nat)
    (lock : LockOutcome) (st : ProcState σ) (samples : List ℚ) :
    CallbackOutcome :=
  match (addSamples resample engineProcess channels frameLen lock st
      samples).res with
  | .ok => .normal
  | _ => .panicked

/-- `examples/mic.rs` line 97:
`let frame_length = pv_cobra_redux::sample_rate() as usize;` — the frame
threshold variable is assigned the engine's sample-rate constant
(`pv_cobra_redux::frame_length()` is never called in `mic.rs`). -/
def mainFrameLength (sampleRate : Nat) : Nat := sampleRate

/-- Sample formats as matched by `main` (`examples/mic.rs` lines 154-190);
`other` stands for every format the match bails on. -/
inductive SampleFormat where
  | i8
  | i16
  | i32
  | f32
  | other
  deriving DecidableEq

/-- Setup failures surfaced by `main` before the stream starts. -/
inductive SetupError where
  | resamplerConfig
  | engineInit (e : Error)
  | unsupportedFormat
  deriving DecidableEq

/-- Stream setup from `main` (`examples/mic.rs` lines 86-191):
`AudioInputProcessor::new` constructs the resampler and the engine, then the
sample-format match decides whether the stream is built. The external
resampler construction (`samplerate::Samplerate::new`) is modelled at its
interface boundary: construction fails only for a malformed configuration
such as zero channels (spec §4.2). `main` performs no channel-count check of
its own. -/
def mainSetup (init : List Nat → Nat × Bool) (accessKey : List Nat)
    (channels : Nat) (fmt : SampleFormat) : Except SetupError Unit :=
  if channels = 0 then .error .resamplerConfig
  else
    match cobraNew init accessKey with
    | .error e => .error (.engineInit e)
    | .ok _ =>
      if fmt = .other then .error .unsupportedFormat else .ok ()

/-- Identity resampler state transition: input already at the target rate. -/
def idResample {σ : Type} : σ → List ℚ → Except Unit (σ × List ℚ) :=
  fun s xs => .ok (s, xs)

/-- Engine stub returning confidence 0 with success status. -/
def zeroEngine : List Int → Except Error ℚ := fun _ => .ok 0

/-!
## C6 — lock contention (WouldBlock) path
-/

/-- C6: when `try_lock` reports `WouldBlock`, `add_samples` emits the
falling-behind diagnostic, touches no pipeline state (resampler state,
accumulator buffer, reported confidence all unchanged; the engine is not
called), and returns `Ok(())` immediately. The state the next successful call
observes is exactly the state the previous successful call left. -/
theorem wouldBlock_skips_and_preserves_state {σ : Type}
    (resample : σ → List ℚ → Except Unit (σ × List ℚ))
    (engineProcess : List Int → Except Error ℚ) (channels frameLen : Nat)
    (st : ProcState σ) (samples : List ℚ) :
    addSamples resample engineProcess channels frameLen .wouldBlock st samples
      = ⟨.ok, st, true, none⟩ := rfl

/-!
## C9 — poisoned lock path
-/

/-- C9: when `try_lock` finds the mutex poisoned, `add_samples` bails with an
error, performing no resampling, mixing, accumulation or scoring: the state is
returned untouched and no frame is handed to the engine. -/
theorem poisoned_lock_is_fatal {σ : Type}
    (resample : σ → List ℚ → Except Unit (σ × List ℚ))
    (engineProcess : List Int → Except Error ℚ) (channels frameLen : Nat)
    (st : ProcState σ) (samples : List ℚ) :
    addSamples resample engineProcess channels frameLen .poisoned st samples
      = ⟨.err .poisoned, st, false, none⟩ := rfl

/-!
## C2 — embedded null byte in the access key
-/

/-- C2 counterexample: an access key with an interior null byte makes
`Cobra::new` return `Err(Error::NullValue)` (the `CString::new` failure is
mapped to `NullValue` by `map_err` in `src/lib.rs` line 90), which is not the
`InvalidArgument` variant the claim names. -/
theorem cobraNew_null_byte_not_invalidArgument :
    cobraNew (fun _ => (0, true)) [97, 0, 98] = .error .NullValue ∧
      (Except.error Error.NullValue : Except Error Unit)
        ≠ .error .InvalidArgument := by
  exact ⟨rfl, by intro h; simp at h⟩

/-- C2 amended: for every access key containing a null byte, `Cobra::new`
fails with `Err(Error::NullValue)` (not `InvalidArgument`), regardless of the
native initializer's behaviour. -/
theorem cobraNew_null_byte_returns_nullValue (init : List Nat → Nat × Bool)
    (accessKey : List Nat) (h : 0 ∈ accessKey) :
    cobraNew init accessKey = .error .NullValue := by
  simp [cobraNew, h]

/-- C2 witness: the amended theorem evaluated at the key `[97, 0, 98]`. -/
theorem cobraNew_null_byte_returns_nullValue_witness :
    cobraNew (fun _ => (7, true)) [97, 0, 98] = .error .NullValue :=
  cobraNew_null_byte_returns_nullValue (fun _ => (7, true)) [97, 0, 98]
    (by decide)

/-!
## Mixer lemmas (shared by the mixer claims)
-/

theorem satCastI16_bounds (n : Int) :
    -32768 ≤ satCastI16 n ∧ satCastI16 n ≤ 32767 := by
  unfold satCastI16
  split
  · omega
  · split <;> omega

theorem scaleSample_zero : scaleSample 0 = 0 := by
  norm_num [scaleSample, roundAway, satCastI16]

theorem scaleSample_bounds (s : ℚ) :
    -32768 ≤ scaleSample s ∧ scaleSample s ≤ 32767 :=
  satCastI16_bounds _

/-- On a buffer holding a whole number of interleaved stereo frames, the pair
fold succeeds, halves the length, and every output sample lies in the int16
range. -/
theorem mixChunks_even_length {xs : List ℚ} (h : xs.length % 2 = 0) :
    ∃ ys, mixChunks xs = some ys ∧ ys.length = xs.length / 2 ∧
      ∀ y ∈ ys, -32768 ≤ y ∧ y ≤ 32767 := by
  induction xs using mixChunks.induct with
  | case1 => exact ⟨[], rfl, rfl, by simp⟩
  | case2 a => simp at h
  | case3 l r rest ih =>
    obtain ⟨ys, hys, hlen, hbd⟩ :=
      ih (by simp only [List.length_cons] at h; omega)
    refine ⟨scaleSample ((l + r) / 2) :: ys, by simp [mixChunks, hys], ?_, ?_⟩
    · simp [hlen]
      omega
    · intro y hy
      rcases List.mem_cons.mp hy with rfl | hy
      · exact scaleSample_bounds _
      · exact hbd y hy

/-- Interleaving of a list of (left, right) stereo frames. -/
def interleave : List (ℚ × ℚ) → List ℚ
  | [] => []
  | (l, r) :: ps => l :: r :: interleave ps

theorem mixChunks_interleave (ps : List (ℚ × ℚ)) :
    mixChunks (interleave ps)
      = some (ps.map fun p => satCastI16 (roundAway ((p.1 + p.2) / 2 * 32767)))
    := by
  induction ps with
  | nil => rfl
  | cons p ps ih =>
    obtain ⟨l, r⟩ := p
    simp [interleave, mixChunks, ih, scaleSample]

theorem interleave_replicate_zero (n : Nat) :
    interleave (List.replicate n ((0 : ℚ), (0 : ℚ)))
      = List.replicate (2 * n) 0 := by
  induction n with
  | zero => rfl
  | succ n ih =>
    have h : 2 * (n + 1) = 2 * n + 1 + 1 := by ring
    rw [h, List.replicate_succ, List.replicate_succ, List.replicate_succ, ← ih]
    rfl

/-!
## C5 — the mixer computes exactly the specified function
-/

/-- C5: the mixer's exact input-output function. For a 1-channel stream each
output sample is `round(s * 32767)` cast (saturating) to int16; for a
2-channel stream each output sample is `round(((l + r) / 2) * 32767)` cast to
int16, taken over consecutive interleaved left/right pairs in order; the
all-(+1, -1) stereo input mixes to all zeros, and all-zero input of either
channel count mixes to all zeros of the expected length. -/
theorem channel_mixer_exact_function :
    (∀ xs : List ℚ, mixToMono 1 xs
        = some (xs.map fun s => satCastI16 (roundAway (s * 32767)))) ∧
    (∀ ps : List (ℚ × ℚ), mixToMono 2 (interleave ps)
        = some (ps.map fun p =>
            satCastI16 (roundAway ((p.1 + p.2) / 2 * 32767)))) ∧
    (∀ n : Nat, mixToMono 2 (interleave (List.replicate n (1, -1)))
        = some (List.replicate n 0)) ∧
    (∀ n : Nat, mixToMono 1 (List.replicate n 0)
        = some (List.replicate n 0)) ∧
    (∀ n : Nat, mixToMono 2 (List.replicate (2 * n) 0)
        = some (List.replicate n 0)) := by
  have hmix2 : ∀ xs : List ℚ, mixToMono 2 xs = mixChunks xs := by
    intro xs; simp [mixToMono]
  refine ⟨fun xs => by simp [mixToMono, scaleSample], fun ps => by
    rw [hmix2]; exact mixChunks_interleave ps, fun n => ?_, fun n => ?_,
    fun n => ?_⟩
  · rw [hmix2, mixChunks_interleave, List.map_replicate]
    have h1 : satCastI16 (roundAway (((1 : ℚ) + -1) / 2 * 32767)) = 0 := by
      norm_num [roundAway, satCastI16]
    rw [h1]
  · simp [mixToMono, List.map_replicate, scaleSample_zero]
  · rw [hmix2, ← interleave_replicate_zero, mixChunks_interleave,
      List.map_replicate]
    have h0 : satCastI16 (roundAway (((0 : ℚ) + 0) / 2 * 32767)) = 0 := by
      norm_num [roundAway, satCastI16]
    rw [h0]

/-!
## C3 — totality and saturation of the mix-and-quantize step
-/

/-- C3 counterexample: a stereo buffer of odd (positive) length panics in the
pair fold (`chunk[1]` is out of bounds on the trailing length-1 chunk), so the
step does not produce a value for every positive buffer length: `add_samples`
with 2 channels on a single-sample resampled buffer panics instead of
returning. -/
theorem stereo_odd_buffer_panics :
    mixToMono 2 [0] = none ∧
      (addSamples (σ := Unit) idResample zeroEngine 2 5 .acquired
          ⟨(), some [], 0⟩ [0]).res = .panicked := by
  exact ⟨rfl, rfl⟩

/-- C3 amended: for 1-channel input of any length, and for 2-channel input
holding a whole number of interleaved frames (even length), the
mix-and-quantize step produces a value for each output sample without panic
or overflow, and every produced sample is saturated into the int16 bounds
(for arbitrary input values, in range or not). Stereo buffers of odd length
are excluded: there the pair fold panics. -/
theorem mixer_total_and_saturating (channels : Nat) (xs : List ℚ)
    (h : channels = 1 ∨ (channels = 2 ∧ xs.length % 2 = 0)) :
    ∃ ys, mixToMono channels xs = some ys ∧
      ys.length = (if channels = 1 then xs.length else xs.length / 2) ∧
      ∀ y ∈ ys, -32768 ≤ y ∧ y ≤ 32767 := by
  rcases h with rfl | ⟨rfl, heven⟩
  · refine ⟨xs.map scaleSample, by simp [mixToMono], by simp, ?_⟩
    intro y hy
    obtain ⟨s, _, rfl⟩ := List.mem_map.mp hy
    exact scaleSample_bounds s
  · obtain ⟨ys, h1, h2, h3⟩ := mixChunks_even_length heven
    exact ⟨ys, by simpa [mixToMono] using h1, by simpa using h2, h3⟩

/-- C3 witness: the amended theorem evaluated on a stereo buffer with
out-of-range values `[2, -3]` (one interleaved frame). -/
theorem mixer_total_and_saturating_witness :
    ∃ ys, mixToMono 2 [2, -3] = some ys ∧
      ys.length = (if 2 = 1 then ([(2 : ℚ), -3]).length
        else ([(2 : ℚ), -3]).length / 2) ∧
      ∀ y ∈ ys, -32768 ≤ y ∧ y ≤ 32767 :=
  mixer_total_and_saturating 2 [2, -3] (Or.inr ⟨rfl, by decide⟩)

/-!
## C7 — per-call engine errors are hard failures
-/

/-- Native engine stub answering every frame with nonzero status 7
(`RUNTIME_ERROR`). -/
def failStatusEngine : List Int → Nat × ℚ := fun _ => (7, 0)

/-- Engine call stub failing with `RuntimeError` (already mapped). -/
def failEngine : List Int → Except Error ℚ := fun _ => .error .RuntimeError

/-- C7: when the scoring call triggered inside an ingestion call returns a
nonzero status, `Cobra::process` maps it to the corresponding `Error`
(`src/lib.rs` lines 102-110), the `?` in `add_samples` propagates it as the
call's result (the call performs no retry and no further processing: the
reported confidence is untouched), and the cpal data callback's `expect`
turns it into a hard failure for the stream. -/
theorem engine_error_propagates {σ : Type}
    (resample : σ → List ℚ → Except Unit (σ × List ℚ))
    (engine : List Int → Nat × ℚ) (channels frameLen : Nat)
    (st : ProcState σ) (samples rs : List ℚ) (r' : σ) (mono b : List Int)
    (s : Nat) (c : ℚ)
    (h1 : resample st.resampler samples = .ok (r', rs))
    (h2 : mixToMono channels rs = some mono)
    (h3 : st.buf = some b)
    (h4 : frameLen ≤ (b ++ mono).length)
    (h5 : engine (b ++ mono) = (s, c))
    (h6 : s ≠ 0) :
    addSamples resample (cobraProcess engine) channels frameLen .acquired st
        samples
      = ⟨.err (.cobra (errorFromStatus s)),
          { st with resampler := r', buf := none }, false, some (b ++ mono)⟩ ∧
    audioCallback resample (cobraProcess engine) channels frameLen .acquired
        st samples = .panicked := by
  have hep : cobraProcess engine (b ++ mono) = .error (errorFromStatus s) := by
    simp [cobraProcess, h5, h6]
  have h4' : frameLen ≤ b.length + mono.length := by simpa using h4
  have hmain : addSamples resample (cobraProcess engine) channels frameLen
      .acquired st samples
      = ⟨.err (.cobra (errorFromStatus s)),
          { st with resampler := r', buf := none }, false, some (b ++ mono)⟩
    := by
    simp [addSamples, h1, h2, h3, h4', hep]
  exact ⟨hmain, by simp [audioCallback, hmain]⟩

/-- C7 witness: the theorem evaluated with an identity resampler, one mono
zero sample, threshold 1, and an engine stub failing with status 7. -/
theorem engine_error_propagates_witness :
    addSamples (σ := Unit) idResample (cobraProcess failStatusEngine) 1 1
        .acquired ⟨(), some [], 0⟩ [0]
      = ⟨.err (.cobra (errorFromStatus 7)), ⟨(), none, 0⟩, false, some [0]⟩ ∧
    audioCallback (σ := Unit) idResample (cobraProcess failStatusEngine) 1 1
        .acquired ⟨(), some [], 0⟩ [0] = .panicked :=
  engine_error_propagates idResample failStatusEngine 1 1 ⟨(), some [], 0⟩
    [0] [0] () [0] [] 7 0 rfl (by simp [mixToMono, scaleSample_zero]) rfl
    (by simp) rfl (by decide)

/-!
## C8 — the error path is not atomic: the accumulator stays absent
-/

/-- C8: if the scoring call fails inside an ingestion call, the accumulator
option has already been `take`n and is never restored, so the state is left
with `buf = None`; the next ingestion call that acquires the lock (and gets
past resampling and mixing) panics on `guard.buf.as_mut().unwrap()` instead
of processing samples. -/
theorem engine_error_leaves_accumulator_absent {σ : Type}
    (resample : σ → List ℚ → Except Unit (σ × List ℚ))
    (engineProcess : List Int → Except Error ℚ) (channels frameLen : Nat)
    (st : ProcState σ) (samples samples2 rs rs2 : List ℚ) (r' r'' : σ)
    (mono mono2 b : List Int) (e : Error)
    (h1 : resample st.resampler samples = .ok (r', rs))
    (h2 : mixToMono channels rs = some mono)
    (h3 : st.buf = some b)
    (h4 : frameLen ≤ (b ++ mono).length)
    (h5 : engineProcess (b ++ mono) = .error e)
    (h6 : resample r' samples2 = .ok (r'', rs2))
    (h7 : mixToMono channels rs2 = some mono2) :
    (addSamples resample engineProcess channels frameLen .acquired st
        samples).st.buf = none ∧
    (addSamples resample engineProcess channels frameLen .acquired
        (addSamples resample engineProcess channels frameLen .acquired st
          samples).st samples2).res = .panicked := by
  have hstep : addSamples resample engineProcess channels frameLen .acquired
      st samples
      = ⟨.err (.cobra e), { st with resampler := r', buf := none }, false,
          some (b ++ mono)⟩ := by
    have h4' : frameLen ≤ b.length + mono.length := by simpa using h4
    simp [addSamples, h1, h2, h3, h4', h5]
  rw [hstep]
  exact ⟨rfl, by simp [addSamples, h6, h7]⟩

/-- C8 witness: identity resampler, threshold 1: the first call scores `[0]`,
the engine fails, and the immediately following call panics. -/
theorem engine_error_leaves_accumulator_absent_witness :
    (addSamples (σ := Unit) idResample failEngine 1 1 .acquired
        ⟨(), some [], 0⟩ [0]).st.buf = none ∧
    (addSamples (σ := Unit) idResample failEngine 1 1 .acquired
        (addSamples (σ := Unit) idResample failEngine 1 1 .acquired
          ⟨(), some [], 0⟩ [0]).st [0]).res = .panicked :=
  engine_error_leaves_accumulator_absent idResample failEngine 1 1
    ⟨(), some [], 0⟩ [0] [0] [0] [0] () () [0] [0] [] .RuntimeError rfl
    (by simp [mixToMono, scaleSample_zero]) rfl (by simp) rfl rfl
    (by simp [mixToMono, scaleSample_zero])

/-!
## C10 — the accumulator drain invariant
-/

/-- C10: every ingestion call that returns `Ok` preserves the invariant
`accumulator length < frameLen` (for positive `frameLen`), and whenever the
call triggered a scoring call, the accumulator ends the call cleared (length
0). `frameLen` is the threshold variable the code drains at. -/
theorem drain_clears_accumulator {σ : Type}
    (resample : σ → List ℚ → Except Unit (σ × List ℚ))
    (engineProcess : List Int → Except Error ℚ) (channels frameLen : Nat)
    (lock : LockOutcome) (st : ProcState σ) (samples : List ℚ)
    (hpos : 0 < frameLen)
    (hinv : ∀ b, st.buf = some b → b.length < frameLen)
    (hok : (addSamples resample engineProcess channels frameLen lock st
        samples).res = .ok) :
    ((addSamples resample engineProcess channels frameLen lock st
        samples).frameSent ≠ none →
      (addSamples resample engineProcess channels frameLen lock st
        samples).st.buf = some []) ∧
    ∀ b', (addSamples resample engineProcess channels frameLen lock st
        samples).st.buf = some b' → b'.length < frameLen := by
  cases lock with
  | wouldBlock => exact ⟨fun hc => absurd rfl hc, hinv⟩
  | poisoned => simp [addSamples] at hok
  | acquired =>
    cases hres : resample st.resampler samples with
    | error u => simp [addSamples, hres] at hok
    | ok pr =>
      obtain ⟨r', rs⟩ := pr
      cases hmix : mixToMono channels rs with
      | none => simp [addSamples, hres, hmix] at hok
      | some mono =>
        cases hbuf : st.buf with
        | none => simp [addSamples, hres, hmix, hbuf] at hok
        | some b =>
          by_cases hlen : frameLen ≤ b.length + mono.length
          · cases hep : engineProcess (b ++ mono) with
            | error e => simp [addSamples, hres, hmix, hbuf, hlen, hep] at hok
            | ok conf =>
              constructor
              · intro _
                simp [addSamples, hres, hmix, hbuf, hlen, hep]
              · intro b' hb'
                simp [addSamples, hres, hmix, hbuf, hlen, hep] at hb'
                subst hb'
                simpa using hpos
          · constructor
            · intro hfs
              exact absurd (by simp [addSamples, hres, hmix, hbuf, hlen]) hfs
            · intro b' hb'
              simp [addSamples, hres, hmix, hbuf, hlen] at hb'
              subst hb'
              rw [List.length_append]
              omega

/-- C10 witness: identity resampler, threshold 2, entry buffer `[7]` (length
1 < 2), one mono zero sample: the call drains and ends with an empty
accumulator. -/
theorem drain_clears_accumulator_witness :
    (((addSamples (σ := Unit) idResample zeroEngine 1 2 .acquired
        ⟨(), some [7], 0⟩ [0]).frameSent ≠ none →
      (addSamples (σ := Unit) idResample zeroEngine 1 2 .acquired
        ⟨(), some [7], 0⟩ [0]).st.buf = some []) ∧
    ∀ b', (addSamples (σ := Unit) idResample zeroEngine 1 2 .acquired
        ⟨(), some [7], 0⟩ [0]).st.buf = some b' → b'.length < 2) :=
  drain_clears_accumulator idResample zeroEngine 1 2 .acquired
    ⟨(), some [7], 0⟩ [0] (by decide)
    (by intro b hb; simp only [Option.some.injEq] at hb; subst hb; decide)
    (by simp [addSamples, idResample, zeroEngine, mixToMono, scaleSample_zero])

/-!
## C1 — the frame handed to the engine
-/

/-- Modelled engine constants for the failing scenario. They are
engine-defined, queried constants (the real Cobra engine reports sample rate
16000 and frame length 512); scaled-down values keep the evaluation small
while preserving the essential fact that the two constants differ. -/
def demoSampleRate : Nat := 8

/-- See `demoSampleRate`: the modelled engine frame-length constant. -/
def demoFrameLength : Nat := 3

/-- C1 (code bug evaluated at a failing input): `main` assigns the engine's
sample-rate constant to its `frame_length` threshold variable
(`examples/mic.rs` line 97; `pv_cobra_redux::frame_length()` is never
queried), and `add_samples` hands the entire accumulated buffer to
`Cobra::process`. Feeding one already-at-target-rate mono callback of
`demoSampleRate` zero samples makes the pipeline hand the engine a slice of
`demoSampleRate` samples, which differs from the engine frame-length
constant. -/
theorem frame_threshold_uses_sample_rate :
    mainFrameLength demoSampleRate = demoSampleRate ∧
    (addSamples (σ := Unit) idResample zeroEngine 1
        (mainFrameLength demoSampleRate) .acquired ⟨(), some [], 0⟩
        (List.replicate demoSampleRate 0)).frameSent
      = some (List.replicate demoSampleRate (0 : Int)) ∧
    (List.replicate demoSampleRate (0 : Int)).length ≠ demoFrameLength := by
  refine ⟨rfl, ?_, by decide⟩
  simp [addSamples, idResample, zeroEngine, mixToMono, mainFrameLength,
    List.map_replicate, scaleSample_zero, demoSampleRate]

/-!
## C4 — channel counts above 2 are not rejected at setup
-/

/-- C4 counterexample: a 3-channel, f32 device configuration passes stream
setup (`main` checks only the sample format; neither
`AudioInputProcessor::new` nor the stream match inspects the channel count),
and the per-sample mixing path is reached, treating the 3-channel buffer with
the 2-channel averaging code. -/
theorem three_channels_accepted_and_mixed :
    mainSetup (fun _ => (0, true)) [97] 3 .f32 = .ok () ∧
    mixToMono 3 [0, 0, 0, 0] = some [0, 0] := by
  have h0 : scaleSample (((0 : ℚ) + 0) / 2) = 0 := by
    norm_num [scaleSample, roundAway, satCastI16]
  exact ⟨rfl, by simp [mixToMono, mixChunks, h0, scaleSample_zero]⟩

/-- C4 amended: stream setup accepts every configuration with a nonzero
channel count and a supported sample format (given the engine initializes);
there is no more-than-2-channels rejection, and for every channel count other
than 1 the per-sample path runs the stereo pair fold. -/
theorem channels_not_checked_at_setup (init : List Nat → Nat × Bool)
    (accessKey : List Nat) (channels : Nat) (fmt : SampleFormat)
    (h1 : channels ≠ 0) (h2 : cobraNew init accessKey = .ok ())
    (h3 : fmt ≠ .other) :
    mainSetup init accessKey channels fmt = .ok () ∧
    (channels ≠ 1 → ∀ xs, mixToMono channels xs = mixChunks xs) := by
  refine ⟨by simp [mainSetup, h1, h2, h3], fun h xs => by simp [mixToMono, h]⟩

/-- C4 witness: the amended theorem evaluated at a 3-channel f32
configuration. -/
theorem channels_not_checked_at_setup_witness :
    mainSetup (fun _ => (0, true)) [97] 3 .f32 = .ok () ∧
    ((3 : Nat) ≠ 1 → ∀ xs, mixToMono 3 xs = mixChunks xs) :=
  channels_not_checked_at_setup (fun _ => (0, true)) [97] 3 .f32 (by decide)
    rfl (by decide)

end PvCobraRedux
